import Mathlib

/-
Verification of the two reMarkable-2 PDF template generators of this
repository (`faction_template.py` and `lazy_dm_template.py`).

Both scripts are straight-line sequences of reportlab canvas calls.  We
shallowly embed them as pure functions that produce a trace of canvas
operations (`Op`), threading the vertical cursor explicitly exactly as the
Python code threads its local variable `y`.

Coordinates are modelled as exact rationals.  Python computes them in IEEE
floating point; every quantity the claims mention is decided by margins that
are orders of magnitude above any rounding error, so the exact-rational
reading is the intended semantics.  We use a transparent fraction type `Q`
(integer numerator/denominator pairs, not reduced) instead of the Mathlib type `ℚ`
so that whole traces evaluate by kernel reduction; the `Q.toRat_*` bridge
lemmas show the arithmetic agrees with `ℚ` whenever denominators are
nonzero, which holds throughout this development because the sources only
ever divide by positive integer constants.
-/

/-- Exact (unreduced) fraction: `num / den`.  All denominators arising from
the embedded programs are positive. -/
structure Q where
  num : Int
  den : Int
deriving DecidableEq

def Q.add (a b : Q) : Q := ⟨a.num * b.den + b.num * a.den, a.den * b.den⟩

def Q.sub (a b : Q) : Q := ⟨a.num * b.den - b.num * a.den, a.den * b.den⟩

def Q.mul (a b : Q) : Q := ⟨a.num * b.num, a.den * b.den⟩

def Q.div (a b : Q) : Q := ⟨a.num * b.den, a.den * b.num⟩

def Q.neg (a : Q) : Q := ⟨-a.num, a.den⟩

instance : Add Q := ⟨Q.add⟩

instance : Sub Q := ⟨Q.sub⟩

instance : Mul Q := ⟨Q.mul⟩

instance : Div Q := ⟨Q.div⟩

instance : Neg Q := ⟨Q.neg⟩

instance (n : Nat) : OfNat Q n := ⟨⟨(n : Int), 1⟩⟩

instance : NatCast Q := ⟨fun n => ⟨(n : Int), 1⟩⟩

instance : IntCast Q := ⟨fun n => ⟨n, 1⟩⟩

instance : OfScientific Q :=
  ⟨fun m b e => if b then ⟨(m : Int), ((10 ^ e : Nat) : Int)⟩ else ⟨(m : Int) * ((10 ^ e : Nat) : Int), 1⟩⟩

/-- `a ≤ b` by cross multiplication; correct whenever both denominators are
positive, which is the case for every comparison performed below. -/
def Q.ble (a b : Q) : Bool := decide (a.num * b.den ≤ b.num * a.den)

/-- Rational equality by cross multiplication (the unreduced pairs may
differ even when the fractions are equal). -/
def Q.eqv (a b : Q) : Prop := a.num * b.den = b.num * a.den

instance (a b : Q) : Decidable (Q.eqv a b) := by unfold Q.eqv; infer_instance

/-- The Python builtin `min` on two numbers: the first argument when `a ≤ b`. -/
def Q.pymin (a b : Q) : Q := cond (Q.ble a b) a b

/-- Floor of the fraction (exact for positive denominators). -/
def Q.floor (a : Q) : Int := a.num.fdiv a.den

/-- The Python builtin `int(...)` applied to the nonnegative quantities the sources
feed it (where truncation and floor agree), used as an iteration count. -/
def pyInt (q : Q) : Nat := q.floor.toNat

/-- Interpretation of `Q` into the Mathlib rationals. -/
def Q.toRat (a : Q) : ℚ := (a.num : ℚ) / (a.den : ℚ)

/-- RGB colour with rational components (the reportlab `Color(r, g, b)`). -/
structure Col where
  r : Q
  g : Q
  b : Q
deriving DecidableEq

/-- One reportlab canvas call.  Constructors carry the arguments in the
order of the corresponding Python call. -/
inductive Op where
  | line (x1 y1 x2 y2 : Q)
  | rect (x y w h : Q)
  | arc (x1 y1 x2 y2 startAng extent : Q)
  | circle (cx cy r : Q)
  | text (x y : Q) (s : String)
  | textC (x y : Q) (s : String)
  | setStrokeColor (c : Col)
  | setFillColor (c : Col)
  | setLineWidth (w : Q)
  | setDash (pattern : List Q)
  | setFont (name : String) (size : Q)
  | linkRect (contents dest : String) (x1 y1 x2 y2 : Q)
  | bookmarkPage (name : String)
  | showPage
deriving DecidableEq

/-- The lowest y-coordinate an operation touches (`none` for pure state
changes, which put no ink on the page). -/
def opMinY : Op → Option Q
  | .line _ y1 _ y2 => some (Q.pymin y1 y2)
  | .rect _ y _ h => some (Q.pymin y (y + h))
  | .arc _ y1 _ y2 _ _ => some (Q.pymin y1 y2)
  | .circle _ cy r => some (cy - r)
  | .text _ y _ => some y
  | .textC _ y _ => some y
  | .linkRect _ _ _ y1 _ y2 => some (Q.pymin y1 y2)
  | _ => none

/-- `true` when every drawing operation of the trace stays at or above the
horizontal line `y = m`. -/
def checkMinY (m : Q) : List Op → Bool
  | [] => true
  | op :: rest =>
    match opMinY op with
    | some q => if Q.ble m q then checkMinY m rest else false
    | none => checkMinY m rest

/-- Split a document trace into its pages: `showPage` ends a page, and the
material after the last `showPage` forms the final page (as the reportlab
`save` call does for a canvas with drawn content). -/
def pagesOf (t : List Op) : List (List Op) :=
  let st := t.foldl
    (fun (acc : List (List Op) × List Op) op =>
      match op with
      | Op.showPage => (acc.2.reverse :: acc.1, [])
      | op => (acc.1, op :: acc.2))
    (([] : List (List Op)), ([] : List Op))
  (st.2.reverse :: st.1).reverse

/-- Names of the bookmark destinations declared in a trace, in order. -/
def bookmarkNames (t : List Op) : List String :=
  t.filterMap fun op => match op with
    | .bookmarkPage n => some n
    | _ => none

/-- Destinations of the clickable link rectangles of a trace, in order. -/
def linkDests (t : List Op) : List String :=
  t.filterMap fun op => match op with
    | .linkRect _ d _ _ _ _ => some d
    | _ => none

/-- The `(x1, y1, x2, y2)` endpoints of every `line` call, in order. -/
def lineOps (t : List Op) : List (Q × Q × Q × Q) :=
  t.filterMap fun op => match op with
    | .line a b c d => some (a, b, c, d)
    | _ => none

/-- The strings drawn by `drawString` calls, in order. -/
def textLabels (t : List Op) : List String :=
  t.filterMap fun op => match op with
    | .text _ _ s => some s
    | _ => none

/-- For every `drawCentredString` call, the string drawn together with the
font name and fill colour in force at that point (state-machine walk over
the trace, starting from the reportlab defaults). -/
def centredTextsFrom : String → Col → List Op → List (String × String × Col)
  | _, _, [] => []
  | _, fill, .setFont n _ :: rest => centredTextsFrom n fill rest
  | font, _, .setFillColor c :: rest => centredTextsFrom font c rest
  | font, fill, .textC _ _ s :: rest => (s, font, fill) :: centredTextsFrom font fill rest
  | font, fill, _ :: rest => centredTextsFrom font fill rest

def centredTexts (t : List Op) : List (String × String × Col) :=
  centredTextsFrom "Helvetica" ⟨0, 0, 0⟩ t

/-- The dash pattern in force after executing a trace, starting from dash
state `d` (`[]` is the reportlab solid stroke). -/
def dashAfter (d : List Q) (t : List Op) : List Q :=
  t.foldl (fun d op => match op with | Op.setDash p => p | _ => d) d

/-- Erase the drawn string from text operations, keeping every position and
all other geometry intact. -/
def eraseLabelText : Op → Op
  | .text x y _ => .text x y ""
  | .textC x y _ => .textC x y ""
  | op => op

/-- Erase font and fill-colour choices, keeping every geometric operation
(including text positions and strings) intact. -/
def eraseTextStyle : Op → Op
  | .setFont _ _ => .setFont "" 0
  | .setFillColor _ => .setFillColor ⟨0, 0, 0⟩
  | op => op

/-- The strings of the centred-text draws of a trace, in order. -/
def centredLabels (t : List Op) : List String :=
  t.filterMap fun op => match op with
    | .textC _ _ s => some s
    | _ => none

/-! ## `faction_template.py` -/

namespace FactionTemplate

/-- reMarkable 2 native resolution: 1404 x 1872 pixels at 226 DPI. -/
def RM2_WIDTH : Q := 1404 * 72 / 226

def RM2_HEIGHT : Q := 1872 * 72 / 226

def LIGHT_GRAY : Col := ⟨0.8, 0.8, 0.8⟩

def MED_GRAY : Col := ⟨0.6, 0.6, 0.6⟩

def DARK_GRAY : Col := ⟨0.3, 0.3, 0.3⟩

def MARGIN : Q := 20

def LINE_HEIGHT : Q := 14

def SMALL_LINE_HEIGHT : Q := 12

/-- Draw a small Celtic-style corner flourish. -/
def draw_corner_flourish (x y : Q) (position : String) : List Op :=
  let size : Q := 8
  [Op.setStrokeColor MED_GRAY, Op.setLineWidth 0.75] ++
  (if position = "tl" then
    [Op.line x y (x + size) y, Op.line x y x (y - size),
     Op.arc x (y - size) (x + size) y 90 90]
  else if position = "tr" then
    [Op.line x y (x - size) y, Op.line x y x (y - size),
     Op.arc (x - size) (y - size) x y 0 90]
  else if position = "bl" then
    [Op.line x y (x + size) y, Op.line x y x (y + size),
     Op.arc x y (x + size) (y + size) 180 90]
  else if position = "br" then
    [Op.line x y (x - size) y, Op.line x y x (y + size),
     Op.arc (x - size) y x (y + size) 270 90]
  else [])

/-- Draw a decorative frame around a section. -/
def draw_decorative_frame (x y width height : Q) : List Op :=
  [Op.setStrokeColor MED_GRAY, Op.setLineWidth 1,
   Op.rect x (y - height) width height] ++
  draw_corner_flourish x y "tl" ++
  draw_corner_flourish (x + width) y "tr" ++
  draw_corner_flourish x (y - height) "bl" ++
  draw_corner_flourish (x + width) (y - height) "br"

/-- Draw a decorated section header; returns the advanced cursor. -/
def draw_section_header (x y width : Q) (title : String) : List Op × Q :=
  ([Op.setFont "Helvetica-Bold" 11, Op.setFillColor DARK_GRAY,
    Op.text (x + 12) y title,
    Op.setStrokeColor MED_GRAY, Op.setLineWidth 1.5,
    Op.line x (y - 5) (x + width) (y - 5)] ++
   draw_corner_flourish x (y + 5) "tl" ++
   draw_corner_flourish (x + width) (y + 5) "tr",
   y - 15)

/-- Draw light gray ruled lines for writing; returns the advanced cursor. -/
def draw_ruled_lines (x y width : Q) (num_lines : Nat)
    (line_height : Q := SMALL_LINE_HEIGHT) : List Op × Q :=
  ([Op.setStrokeColor LIGHT_GRAY, Op.setLineWidth 0.5, Op.setDash [2, 2]] ++
   ((List.range num_lines).map fun i =>
     Op.line x (y - (i : Q) * line_height) (x + width) (y - (i : Q) * line_height)) ++
   [Op.setDash []],
   y - (num_lines : Q) * line_height)

/-- Draw a decorative sword divider. -/
def draw_sword_divider (x y width : Q) : List Op :=
  let mid := x + width / 2
  [Op.setStrokeColor MED_GRAY, Op.setLineWidth 0.75,
   Op.line (x + 20) y (mid - 15) y,
   Op.line (mid + 15) y (x + width - 20) y,
   Op.line (mid - 12) y (mid + 12) y,
   Op.line (mid - 3) (y - 3) (mid - 3) (y + 3),
   Op.line (mid + 3) (y - 3) (mid + 3) (y + 3),
   Op.circle mid y 2]

/-- Draw a labeled field with underline. -/
def draw_field_with_label (x y : Q) (label : String) (line_start line_end : Q) : List Op :=
  [Op.setFont "Helvetica" 9, Op.setFillColor MED_GRAY, Op.text x y label,
   Op.setStrokeColor LIGHT_GRAY, Op.setLineWidth 0.5, Op.setDash [2, 2],
   Op.line line_start (y - 3) line_end (y - 3), Op.setDash []]

/-- Draw a progress track as a horizontal scale (matching disposition
style).

The source centres each label by hand: `drawString(tick_x - label_width/2,
y - 16, label)` with `label_width = stringWidth(label, "Helvetica", 8)`,
which is by definition the centred-text draw `drawCentredString(tick_x,
y - 16, label)`; we record it as the centred-text operation so that the
trace does not depend on the font-metric table of the backend (external to
this repository). -/
def draw_progress_clock (x y width : Q) : List Op :=
  let scale_width := width - 20
  let start_x := x + 10
  let labels := ["Nascent", "Emerging", "Advancing", "Imminent", "Complete"]
  let num_labels := labels.length
  let segment_width := scale_width / ((num_labels - 1 : Nat) : Q)
  let minor_ticks : Nat := 3
  [Op.setStrokeColor MED_GRAY, Op.setLineWidth 1,
   Op.line start_x y (start_x + scale_width) y,
   Op.setFont "Helvetica" 8, Op.setFillColor MED_GRAY] ++
  (labels.enum.flatMap fun p =>
    let tick_x := start_x + (p.1 : Q) * segment_width
    [Op.line tick_x (y - 5) tick_x (y + 5),
     Op.textC tick_x (y - 16) p.2]) ++
  [Op.setStrokeColor LIGHT_GRAY, Op.setLineWidth 0.5] ++
  ((List.range (num_labels - 1)).flatMap fun i =>
    (List.range minor_ticks).map fun j0 =>
      let j : Nat := j0 + 1
      let tick_x := start_x + (i : Q) * segment_width +
        (j : Q) * (segment_width / ((minor_ticks + 1 : Nat) : Q))
      Op.line tick_x (y - 3) tick_x (y + 3))

/-- Draw a horizontal disposition scale with tick marks (labels centred by
hand in the source, recorded as centred-text draws, as in
`draw_progress_clock`). -/
def draw_disposition_scale (x y width : Q) : List Op :=
  let scale_width := width - 20
  let start_x := x + 10
  let labels := ["Hostile", "Wary", "Neutral", "Friendly", "Allied"]
  let num_labels := labels.length
  let segment_width := scale_width / ((num_labels - 1 : Nat) : Q)
  let minor_ticks : Nat := 3
  [Op.setStrokeColor MED_GRAY, Op.setLineWidth 1,
   Op.line start_x y (start_x + scale_width) y,
   Op.setFont "Helvetica" 8, Op.setFillColor MED_GRAY] ++
  (labels.enum.flatMap fun p =>
    let tick_x := start_x + (p.1 : Q) * segment_width
    [Op.line tick_x (y - 5) tick_x (y + 5),
     Op.textC tick_x (y - 16) p.2]) ++
  [Op.setStrokeColor LIGHT_GRAY, Op.setLineWidth 0.5] ++
  ((List.range (num_labels - 1)).flatMap fun i =>
    (List.range minor_ticks).map fun j0 =>
      let j : Nat := j0 + 1
      let tick_x := start_x + (i : Q) * segment_width +
        (j : Q) * (segment_width / ((minor_ticks + 1 : Nat) : Q))
      Op.line tick_x (y - 3) tick_x (y + 3))

/-- Draw a single faction tracking page (page 1). -/
def draw_faction_page (_page_num : Nat) : List Op :=
  let page_width := RM2_WIDTH
  let content_width := page_width - 2 * MARGIN
  let y := RM2_HEIGHT - MARGIN
  let header_height : Q := 35
  let ops := draw_decorative_frame MARGIN y content_width header_height
  let ops := ops ++
    [Op.setFont "Helvetica-Bold" 14, Op.setFillColor DARK_GRAY,
     Op.text (MARGIN + 10) (y - 15) "FACTION:",
     Op.setStrokeColor LIGHT_GRAY, Op.setLineWidth 0.5, Op.setDash [2, 2],
     Op.line (MARGIN + 75) (y - 19) (content_width - 100) (y - 19),
     Op.setFont "Helvetica" 9, Op.setFillColor MED_GRAY,
     Op.text (content_width - 85) (y - 15) "Alignment:",
     Op.line (content_width - 30) (y - 19) (content_width + MARGIN - 10) (y - 19),
     Op.setDash []]
  let y := y - (header_height + 15)
  let sh := draw_section_header MARGIN y content_width "Core Identity"
  let ops := ops ++ sh.1
  let y := sh.2 - 5
  let ops := ops ++ draw_field_with_label (MARGIN + 5) y "Leader/Key Figure:"
    (MARGIN + 100) (content_width + MARGIN - 5)
  let y := y - 18
  let ops := ops ++ draw_field_with_label (MARGIN + 5) y "Primary Location:"
    (MARGIN + 95) (content_width + MARGIN - 5)
  let y := y - 18
  let ops := ops ++ [Op.setFont "Helvetica" 9, Op.setFillColor MED_GRAY,
    Op.text (MARGIN + 5) y "Goal (What They Want):"]
  let y := y - 12
  let rl := draw_ruled_lines (MARGIN + 10) y (content_width - 15) 4
  let ops := ops ++ rl.1
  let y := rl.2
  let y := y - 8
  let ops := ops ++ [Op.setFont "Helvetica" 9, Op.setFillColor MED_GRAY,
    Op.text (MARGIN + 5) y "Resources:"]
  let y := y - 15
  let box_size : Q := 10
  let box_spacing : Q := 3
  let label_width_max : Q := 55
  let col_width := (content_width - 10) / 2
  let ops := ops ++ [Op.setFont "Helvetica" 8, Op.setFillColor MED_GRAY,
    Op.text (MARGIN + 10) y "Troops:"]
  let box_start_x := MARGIN + label_width_max
  let ops := ops ++ ((List.range 5).flatMap fun j =>
    [Op.setStrokeColor MED_GRAY, Op.setLineWidth 0.75,
     Op.rect (box_start_x + (j : Q) * (box_size + box_spacing)) (y - 2) box_size box_size])
  let ops := ops ++ [Op.setFillColor MED_GRAY, Op.text (MARGIN + col_width + 10) y "Magic:"]
  let box_start_x_right := MARGIN + col_width + label_width_max - 5
  let ops := ops ++ ((List.range 5).flatMap fun j =>
    [Op.setStrokeColor MED_GRAY, Op.setLineWidth 0.75,
     Op.rect (box_start_x_right + (j : Q) * (box_size + box_spacing)) (y - 2) box_size box_size])
  let y := y - 16
  let ops := ops ++ [Op.setFont "Helvetica" 8, Op.setFillColor MED_GRAY,
    Op.text (MARGIN + 10) y "Money:"]
  let ops := ops ++ ((List.range 5).flatMap fun j =>
    [Op.setStrokeColor MED_GRAY, Op.setLineWidth 0.75,
     Op.rect (box_start_x + (j : Q) * (box_size + box_spacing)) (y - 2) box_size box_size])
  let ops := ops ++ [Op.setFillColor MED_GRAY, Op.text (MARGIN + col_width + 10) y "Influence:"]
  let ops := ops ++ ((List.range 5).flatMap fun j =>
    [Op.setStrokeColor MED_GRAY, Op.setLineWidth 0.75,
     Op.rect (box_start_x_right + (j : Q) * (box_size + box_spacing)) (y - 2) box_size box_size])
  let y := y - 16
  let y := y - 5
  let ops := ops ++ [Op.setFont "Helvetica" 8, Op.setFillColor LIGHT_GRAY,
    Op.text (MARGIN + 10) y "Notes:"]
  let y := y - 10
  let rl := draw_ruled_lines (MARGIN + 10) y (content_width - 15) 3
  let ops := ops ++ rl.1
  let y := rl.2
  let y := y - 10
  let sh := draw_section_header MARGIN y content_width "Current Activity"
  let ops := ops ++ sh.1
  let y := sh.2 - 5
  let frame_height : Q := 65
  let ops := ops ++ draw_decorative_frame MARGIN y content_width frame_height
  let ops := ops ++ [Op.setFont "Helvetica" 9, Op.setFillColor MED_GRAY,
    Op.text (MARGIN + 8) (y - 12) "Current Plan/Front:"]
  let ops := ops ++ (draw_ruled_lines (MARGIN + 10) (y - 22) (content_width - 20) 3).1
  let y := y - (frame_height + 12)
  let ops := ops ++ [Op.setFont "Helvetica" 9, Op.setFillColor MED_GRAY,
    Op.text (MARGIN + 5) y "Progress Clock:"]
  let y := y - 22
  let ops := ops ++ draw_progress_clock MARGIN y content_width
  let y := y - 38
  let sh := draw_section_header MARGIN y content_width "Notes"
  let ops := ops ++ sh.1
  let y := sh.2 - 5
  ops ++ (draw_ruled_lines (MARGIN + 5) y (content_width - 10) 5).1

/-- Draw the second page of faction tracking (Relationships and
Intelligence). -/
def draw_faction_page_2 : List Op :=
  let page_width := RM2_WIDTH
  let content_width := page_width - 2 * MARGIN
  let y := RM2_HEIGHT - MARGIN
  let sh := draw_section_header MARGIN y content_width "Relationships"
  let ops := sh.1
  let y := sh.2 - 5
  let ops := ops ++ [Op.setFont "Helvetica" 9, Op.setFillColor MED_GRAY,
    Op.text (MARGIN + 5) y "Disposition Toward PCs:"]
  let y := y - 25
  let ops := ops ++ draw_disposition_scale MARGIN y content_width
  let y := y - 35
  let ops := ops ++ [Op.setFont "Helvetica" 9, Op.setFillColor MED_GRAY,
    Op.text (MARGIN + 5) y "Connections to Other Factions:"]
  let y := y - 15
  let col_width := (content_width - 20) / 2
  let st := (List.range 4).foldl
    (fun (acc : List Op × Q) _ =>
      let ops := acc.1
      let y := acc.2
      (ops ++ [Op.setFont "Helvetica" 8, Op.setFillColor LIGHT_GRAY,
        Op.text (MARGIN + 10) y "Faction:",
        Op.text (MARGIN + col_width + 10) y "Relationship:",
        Op.setStrokeColor LIGHT_GRAY, Op.setLineWidth 0.5, Op.setDash [2, 2],
        Op.line (MARGIN + 50) (y - 3) (MARGIN + col_width) (y - 3),
        Op.line (MARGIN + col_width + 70) (y - 3) (content_width + MARGIN - 5) (y - 3),
        Op.setDash []],
       y - 14))
    (ops, y)
  let ops := st.1
  let y := st.2
  let y := y - 15
  let sh := draw_section_header MARGIN y content_width "Intelligence"
  let ops := ops ++ sh.1
  let y := sh.2 - 5
  let ops := ops ++ [Op.setFont "Helvetica" 9, Op.setFillColor MED_GRAY,
    Op.text (MARGIN + 5) y "Known Agents/NPCs:"]
  let y := y - 15
  let st := (List.range 5).foldl
    (fun (acc : List Op × Q) _ =>
      let ops := acc.1
      let y := acc.2
      (ops ++ [Op.setFont "Helvetica" 8, Op.setFillColor LIGHT_GRAY,
        Op.text (MARGIN + 10) y "Name:",
        Op.text (MARGIN + col_width - 20) y "Role:",
        Op.setStrokeColor LIGHT_GRAY, Op.setLineWidth 0.5, Op.setDash [2, 2],
        Op.line (MARGIN + 45) (y - 3) (MARGIN + col_width - 30) (y - 3),
        Op.line (MARGIN + col_width + 5) (y - 3) (content_width + MARGIN - 5) (y - 3),
        Op.setDash []],
       y - 14))
    (ops, y)
  let ops := st.1
  let y := st.2
  let y := y - 10
  let col_width_half := (content_width - 15) / 2
  let ops := ops ++ [Op.setFont "Helvetica" 9, Op.setFillColor MED_GRAY,
    Op.text (MARGIN + 5) y "Strengths:",
    Op.text (MARGIN + col_width_half + 15) y "Weaknesses:"]
  let y := y - 12
  let st := (List.range 5).foldl
    (fun (acc : List Op × Q) _ =>
      let ops := acc.1
      let y := acc.2
      (ops ++ [Op.setStrokeColor LIGHT_GRAY, Op.setLineWidth 0.5, Op.setDash [2, 2],
        Op.line (MARGIN + 10) y (MARGIN + col_width_half) y,
        Op.line (MARGIN + col_width_half + 15) y (content_width + MARGIN - 5) y,
        Op.setDash []],
       y - SMALL_LINE_HEIGHT))
    (ops, y)
  let ops := st.1
  let y := st.2
  let y := y - 10
  let sh := draw_section_header MARGIN y content_width "Notes"
  let ops := ops ++ sh.1
  let y := sh.2 - 5
  let remaining_lines := pyInt ((y - MARGIN - 10) / SMALL_LINE_HEIGHT)
  ops ++ (draw_ruled_lines (MARGIN + 5) y (content_width - 10) remaining_lines).1

/-- Generate the faction tracking template (2 pages for 1 faction): the
page size handed to the canvas and the full operation trace written to the
document. -/
def create_faction_template : (Q × Q) × List Op :=
  ((RM2_WIDTH, RM2_HEIGHT),
   draw_faction_page 1 ++ [Op.showPage] ++ draw_faction_page_2)

end FactionTemplate

/-! ## `lazy_dm_template.py` -/

namespace LazyDmTemplate

/-- reMarkable 2 native resolution: 1404 x 1872 pixels at 226 DPI,
converted to points (72 DPI). -/
def RM2_WIDTH : Q := 1404 * 72 / 226

def RM2_HEIGHT : Q := 1872 * 72 / 226

def LIGHT_GRAY : Col := ⟨0.8, 0.8, 0.8⟩

def MED_GRAY : Col := ⟨0.6, 0.6, 0.6⟩

def DARK_GRAY : Col := ⟨0.3, 0.3, 0.3⟩

def MARGIN : Q := 20

def LINE_HEIGHT : Q := 14

def SMALL_LINE_HEIGHT : Q := 12

def NAV_HEIGHT : Q := 25

def HEADER_HEIGHT : Q := 18

/-- Page names for navigation. -/
def PAGES : List String :=
  ["Overview", "Scenes", "Locations", "Secrets", "NPCs", "Combat", "Notes"]

/-- Draw navigation bar at top of page with links; returns the Y position
below the nav bar. -/
def draw_nav_bar (page_width : Q) (current_page_idx : Nat) : List Op × Q :=
  let y := RM2_HEIGHT - MARGIN - 15
  let link_width := (page_width - 2 * MARGIN) / (PAGES.length : Q)
  ([Op.setStrokeColor MED_GRAY, Op.setLineWidth 1,
    Op.line MARGIN (y - 8) (page_width - MARGIN) (y - 8),
    Op.line MARGIN (y + 12) (page_width - MARGIN) (y + 12)] ++
   (PAGES.enum.flatMap fun p =>
     let x := MARGIN + (p.1 : Q) * link_width + link_width / 2
     let style := if p.1 = current_page_idx then (DARK_GRAY, "Helvetica-Bold")
       else (MED_GRAY, "Helvetica")
     [Op.setFillColor style.1, Op.setFont style.2 10,
      Op.textC x y p.2,
      Op.linkRect "" ("page" ++ toString (p.1 + 1))
        (x - link_width / 2 + 5) (y - 5) (x + link_width / 2 - 5) (y + 12)]),
   y - 20)

/-- Draw a small Celtic-style corner flourish. -/
def draw_corner_flourish (x y : Q) (position : String) : List Op :=
  let size : Q := 8
  [Op.setStrokeColor MED_GRAY, Op.setLineWidth 0.75] ++
  (if position = "tl" then
    [Op.line x y (x + size) y, Op.line x y x (y - size),
     Op.arc x (y - size) (x + size) y 90 90]
  else if position = "tr" then
    [Op.line x y (x - size) y, Op.line x y x (y - size),
     Op.arc (x - size) (y - size) x y 0 90]
  else if position = "bl" then
    [Op.line x y (x + size) y, Op.line x y x (y + size),
     Op.arc x y (x + size) (y + size) 180 90]
  else if position = "br" then
    [Op.line x y (x - size) y, Op.line x y x (y + size),
     Op.arc (x - size) y x (y + size) 270 90]
  else [])

/-- Draw a decorated section header; returns the advanced cursor (the
source also accepts an unused `icon` argument defaulting to `None`). -/
def draw_section_header (x y width : Q) (title : String) : List Op × Q :=
  ([Op.setFont "Helvetica-Bold" 12, Op.setFillColor DARK_GRAY,
    Op.text (x + 12) y title,
    Op.setStrokeColor MED_GRAY, Op.setLineWidth 1.5,
    Op.line x (y - 5) (x + width) (y - 5)] ++
   draw_corner_flourish x (y + 5) "tl" ++
   draw_corner_flourish (x + width) (y + 5) "tr",
   y - 15)

/-- Draw light gray ruled lines for writing; returns the advanced cursor. -/
def draw_ruled_lines (x y width : Q) (num_lines : Nat)
    (line_height : Q := SMALL_LINE_HEIGHT) : List Op × Q :=
  ([Op.setStrokeColor LIGHT_GRAY, Op.setLineWidth 0.5, Op.setDash [2, 2]] ++
   ((List.range num_lines).map fun i =>
     Op.line x (y - (i : Q) * line_height) (x + width) (y - (i : Q) * line_height)) ++
   [Op.setDash []],
   y - (num_lines : Q) * line_height)

/-- Draw a checkbox square. -/
def draw_checkbox (x y : Q) (size : Q := 8) : List Op :=
  [Op.setStrokeColor MED_GRAY, Op.setLineWidth 0.75,
   Op.rect x (y - size + 2) size size]

/-- Draw a decorative frame around a section (the source also accepts an
unused `style` argument defaulting to `"parchment"`). -/
def draw_decorative_frame (x y width height : Q) : List Op :=
  [Op.setStrokeColor MED_GRAY, Op.setLineWidth 1,
   Op.rect x (y - height) width height] ++
  draw_corner_flourish x y "tl" ++
  draw_corner_flourish (x + width) y "tr" ++
  draw_corner_flourish x (y - height) "bl" ++
  draw_corner_flourish (x + width) (y - height) "br"

/-- Draw a decorative sword divider. -/
def draw_sword_divider (x y width : Q) : List Op :=
  let mid := x + width / 2
  [Op.setStrokeColor MED_GRAY, Op.setLineWidth 0.75,
   Op.line (x + 20) y (mid - 15) y,
   Op.line (mid + 15) y (x + width - 20) y,
   Op.line (mid - 12) y (mid + 12) y,
   Op.line (mid - 3) (y - 3) (mid - 3) (y + 3),
   Op.line (mid + 3) (y - 3) (mid + 3) (y + 3),
   Op.circle mid y 2]

/-- Draw Page 1: Overview with header, characters, strong start, story
beats. -/
def draw_page1_overview : List Op :=
  let page_width := RM2_WIDTH
  let content_width := page_width - 2 * MARGIN
  let ops : List Op := [Op.bookmarkPage "page1"]
  let nav := draw_nav_bar page_width 0
  let ops := ops ++ nav.1
  let y := nav.2
  let y := y - 10
  let ops := ops ++ draw_decorative_frame MARGIN y content_width 45
  let ops := ops ++
    [Op.setFont "Helvetica-Bold" 11, Op.setFillColor DARK_GRAY,
     Op.text (MARGIN + 10) (y - 12) "Campaign:",
     Op.setStrokeColor LIGHT_GRAY, Op.setLineWidth 0.5,
     Op.line (MARGIN + 70) (y - 16) (content_width + MARGIN - 10) (y - 16),
     Op.setFont "Helvetica-Bold" 10,
     Op.text (MARGIN + 10) (y - 35) "Session #",
     Op.text (MARGIN + 150) (y - 35) "Date:",
     Op.line (MARGIN + 65) (y - 39) (MARGIN + 130) (y - 39),
     Op.line (MARGIN + 180) (y - 39) (MARGIN + 280) (y - 39)]
  let y := y - 60
  let col_width := (content_width - 10) / 2
  let section_start_y := y
  let sh := draw_section_header MARGIN y col_width "Review the Characters"
  let ops := ops ++ sh.1
  let y := sh.2 - 5
  let st := (List.range 4).foldl
    (fun (acc : List Op × Q) i =>
      let ops := acc.1
      let y := acc.2
      let ops := ops ++ [Op.setFont "Helvetica" 9, Op.setFillColor MED_GRAY,
        Op.text (MARGIN + 5) y ("PC " ++ toString (i + 1) ++ ":")]
      let rl := draw_ruled_lines (MARGIN + 35) y (col_width - 35) 2
      (ops ++ rl.1, rl.2 - 5))
    (ops, y)
  let ops := st.1
  let left_col_end_y := st.2
  let right_col_x := MARGIN + col_width + 10
  let y := section_start_y
  let sh := draw_section_header right_col_x y col_width "Session Recap"
  let ops := ops ++ sh.1
  let y := sh.2 - 5
  let rl := draw_ruled_lines (right_col_x + 5) y (col_width - 10) 9
  let ops := ops ++ rl.1
  let y := rl.2
  let y := Q.pymin left_col_end_y y
  let y := y - 10
  let sh := draw_section_header MARGIN y content_width "Strong Start"
  let ops := ops ++ sh.1
  let y := sh.2 - 5
  let frame_height : Q := 140
  let ops := ops ++ draw_decorative_frame MARGIN y content_width frame_height
  let rl := draw_ruled_lines (MARGIN + 10) (y - 15) (content_width - 20) 10
  let ops := ops ++ rl.1
  let y := rl.2
  let y := y - 20
  let sh := draw_section_header MARGIN y content_width "Story Beats"
  let ops := ops ++ sh.1
  let y := sh.2 - 5
  let remaining_height := y - MARGIN - 10
  let num_lines := pyInt (remaining_height / SMALL_LINE_HEIGHT)
  let col3_width := (content_width - 20) / 3
  let st := (List.range num_lines).foldl
    (fun (acc : List Op × Q) _ =>
      let ops := acc.1
      let y := acc.2
      (ops ++ [Op.setStrokeColor LIGHT_GRAY, Op.setLineWidth 0.5, Op.setDash [2, 2],
        Op.line (MARGIN + 5) y (MARGIN + col3_width - 5) y,
        Op.line (MARGIN + col3_width + 10) y (MARGIN + 2 * col3_width + 5) y,
        Op.line (MARGIN + 2 * col3_width + 15) y (MARGIN + content_width - 5) y],
       y - SMALL_LINE_HEIGHT))
    (ops, y)
  st.1 ++ [Op.setDash []]

/-- Draw Page 2: Potential Scenes (full page). -/
def draw_page2_scenes : List Op :=
  let page_width := RM2_WIDTH
  let content_width := page_width - 2 * MARGIN
  let ops : List Op := [Op.bookmarkPage "page2"]
  let nav := draw_nav_bar page_width 1
  let ops := ops ++ nav.1
  let y := nav.2
  let y := y - 10
  let sh := draw_section_header MARGIN y content_width "Potential Scenes"
  let ops := ops ++ sh.1
  let y := sh.2 - 5
  let st := (List.range 7).foldl
    (fun (acc : List Op × Q) i =>
      let ops := acc.1
      let y := acc.2
      let ops := ops ++ [Op.setFont "Helvetica-Bold" 9, Op.setFillColor MED_GRAY,
        Op.text (MARGIN + 5) y ("Scene " ++ toString (i + 1) ++ ":"),
        Op.setStrokeColor LIGHT_GRAY,
        Op.line (MARGIN + 50) (y - 3) (content_width + MARGIN) (y - 3)]
      let y := y - 15
      let rl := draw_ruled_lines (MARGIN + 10) y (content_width - 10) 4
      (ops ++ rl.1, rl.2 - 8))
    (ops, y)
  st.1

/-- Draw Page 3: Fantastic Locations (full page). -/
def draw_page3_locations : List Op :=
  let page_width := RM2_WIDTH
  let content_width := page_width - 2 * MARGIN
  let ops : List Op := [Op.bookmarkPage "page3"]
  let nav := draw_nav_bar page_width 2
  let ops := ops ++ nav.1
  let y := nav.2
  let y := y - 10
  let sh := draw_section_header MARGIN y content_width "Fantastic Locations"
  let ops := ops ++ sh.1
  let y := sh.2 - 5
  let st := (List.range 8).foldl
    (fun (acc : List Op × Q) i =>
      let ops := acc.1
      let y := acc.2
      let ops := ops ++ [Op.setFont "Helvetica-Bold" 9, Op.setFillColor MED_GRAY,
        Op.text (MARGIN + 5) y ("Location " ++ toString (i + 1) ++ ":"),
        Op.setStrokeColor LIGHT_GRAY,
        Op.line (MARGIN + 65) (y - 3) (content_width + MARGIN) (y - 3)]
      let y := y - 15
      let ops := ops ++ [Op.setFont "Helvetica" 8, Op.setFillColor LIGHT_GRAY,
        Op.text (MARGIN + 10) y "Features:"]
      let rl := draw_ruled_lines (MARGIN + 55) y (content_width - 55) 3
      (ops ++ rl.1, rl.2 - 8))
    (ops, y)
  st.1

/-- Draw Page 4: Secrets/Clues and Loot & Rewards. -/
def draw_page4_secrets : List Op :=
  let page_width := RM2_WIDTH
  let content_width := page_width - 2 * MARGIN
  let ops : List Op := [Op.bookmarkPage "page4"]
  let nav := draw_nav_bar page_width 3
  let ops := ops ++ nav.1
  let y := nav.2
  let y := y - 10
  let sh := draw_section_header MARGIN y content_width "Secrets and Clues"
  let ops := ops ++ sh.1
  let y := sh.2 - 5
  let st := (List.range 10).foldl
    (fun (acc : List Op × Q) i =>
      let ops := acc.1
      let y := acc.2
      let ops := ops ++ draw_checkbox (MARGIN + 5) y
      let ops := ops ++ [Op.setFont "Helvetica" 9, Op.setFillColor MED_GRAY,
        Op.text (MARGIN + 18) (y - 6) (toString (i + 1) ++ ".")]
      let rl := draw_ruled_lines (MARGIN + 30) (y - 6) (content_width - 30) 2
      (ops ++ rl.1, rl.2 - 5))
    (ops, y)
  let ops := st.1
  let y := st.2
  let y := y - 5
  let sh := draw_section_header MARGIN y content_width "Loot & Rewards"
  let ops := ops ++ sh.1
  let y := sh.2 - 5
  let col_width := (content_width - 10) / 2
  let remaining_height := y - MARGIN - 10
  let num_rows := pyInt (remaining_height / SMALL_LINE_HEIGHT) + 1
  let st := (List.range num_rows).foldl
    (fun (acc : List Op × Q) _ =>
      let ops := acc.1
      let y := acc.2
      (ops ++ [Op.setStrokeColor LIGHT_GRAY, Op.setLineWidth 0.5, Op.setDash [2, 2],
        Op.line (MARGIN + 5) y (MARGIN + col_width - 5) y,
        Op.line (MARGIN + col_width + 15) y (MARGIN + content_width - 5) y],
       y - SMALL_LINE_HEIGHT))
    (ops, y)
  st.1 ++ [Op.setDash []]

/-- Draw Page 5: Important NPCs (full page). -/
def draw_page5_npcs : List Op :=
  let page_width := RM2_WIDTH
  let content_width := page_width - 2 * MARGIN
  let ops : List Op := [Op.bookmarkPage "page5"]
  let nav := draw_nav_bar page_width 4
  let ops := ops ++ nav.1
  let y := nav.2
  let y := y - 10
  let sh := draw_section_header MARGIN y content_width "Important NPCs"
  let ops := ops ++ sh.1
  let y := sh.2 - 5
  let st := (List.range 4).foldl
    (fun (acc : List Op × Q) _ =>
      let ops := acc.1
      let y := acc.2
      let frame_height : Q := 105
      let ops := ops ++ draw_decorative_frame MARGIN y content_width frame_height
      let inner_y := y - 14
      let ops := ops ++ [Op.setFont "Helvetica-Bold" 9, Op.setFillColor MED_GRAY,
        Op.text (MARGIN + 8) inner_y "Name:",
        Op.setStrokeColor LIGHT_GRAY, Op.setLineWidth 0.5, Op.setDash [2, 2],
        Op.line (MARGIN + 40) (inner_y - 3) (MARGIN + 200) (inner_y - 3),
        Op.setFont "Helvetica" 8, Op.setFillColor MED_GRAY,
        Op.text (MARGIN + 210) inner_y "Faction:",
        Op.setStrokeColor LIGHT_GRAY,
        Op.line (MARGIN + 250) (inner_y - 3) (content_width + MARGIN - 10) (inner_y - 3)]
      let inner_y := inner_y - 16
      let ops := ops ++ [Op.text (MARGIN + 8) inner_y "Appearance:",
        Op.line (MARGIN + 60) (inner_y - 3) (content_width + MARGIN - 10) (inner_y - 3)]
      let inner_y := inner_y - 16
      let ops := ops ++ [Op.text (MARGIN + 8) inner_y "Motivation:",
        Op.line (MARGIN + 55) (inner_y - 3) (content_width + MARGIN - 10) (inner_y - 3)]
      let inner_y := inner_y - 16
      let ops := ops ++ [Op.text (MARGIN + 8) inner_y "Voice/Quirk:",
        Op.line (MARGIN + 58) (inner_y - 3) (content_width + MARGIN - 10) (inner_y - 3)]
      let inner_y := inner_y - 16
      let ops := ops ++ [Op.text (MARGIN + 8) inner_y "Notes:",
        Op.line (MARGIN + 40) (inner_y - 3) (content_width + MARGIN - 10) (inner_y - 3)]
      let inner_y := inner_y - 12
      let ops := ops ++ [Op.line (MARGIN + 10) (inner_y - 3) (content_width + MARGIN - 10) (inner_y - 3),
        Op.setDash []]
      (ops, y - (frame_height + 12)))
    (ops, y)
  st.1

/-- Draw a single initiative tracker box. -/
def draw_initiative_tracker (x y width height : Q) (tracker_num : Nat) : List Op :=
  draw_decorative_frame x y width height ++
  (let inner_y := y - 12
   [Op.setFont "Helvetica-Bold" 9, Op.setFillColor MED_GRAY,
    Op.text (x + 5) inner_y ("Encounter " ++ toString tracker_num ++ ":"),
    Op.setStrokeColor LIGHT_GRAY,
    Op.line (x + 70) (inner_y - 3) (x + width - 10) (inner_y - 3)] ++
   (let inner_y := inner_y - 18
    [Op.setFont "Helvetica" 7, Op.setFillColor LIGHT_GRAY,
     Op.text (x + 5) inner_y "Init",
     Op.text (x + 30) inner_y "Name",
     Op.text (x + width - 70) inner_y "HP",
     Op.text (x + width - 30) inner_y "Notes"] ++
    (let inner_y := inner_y - 10
     ((List.range 12).foldl
       (fun (acc : List Op × Q) _ =>
         let ops := acc.1
         let iy := acc.2
         (ops ++ [Op.setStrokeColor LIGHT_GRAY, Op.setLineWidth 0.5, Op.setDash [1, 2],
            Op.rect (x + 5) (iy - 10) 18 12,
            Op.line (x + 28) (iy - 8) (x + width - 75) (iy - 8)] ++
          ((List.range 5).map fun j =>
            Op.rect (x + width - 70 + (j : Q) * 10) (iy - 10) 8 10) ++
          [Op.line (x + width - 18) (iy - 8) (x + width - 5) (iy - 8)],
          iy - 12))
       ([], inner_y)).1 ++
     [Op.setDash []])))

/-- Draw Page 6: Combat with 2x2 initiative trackers and monster
reference. -/
def draw_page6_combat : List Op :=
  let page_width := RM2_WIDTH
  let content_width := page_width - 2 * MARGIN
  let ops : List Op := [Op.bookmarkPage "page6"]
  let nav := draw_nav_bar page_width 5
  let ops := ops ++ nav.1
  let y := nav.2
  let y := y - 10
  let sh := draw_section_header MARGIN y content_width "Initiative Trackers"
  let ops := ops ++ sh.1
  let y := sh.2 - 5
  let tracker_width := (content_width - 10) / 2
  let tracker_height : Q := 195
  let ops := ops ++ draw_initiative_tracker MARGIN y tracker_width tracker_height 1
  let ops := ops ++ draw_initiative_tracker (MARGIN + tracker_width + 10) y tracker_width tracker_height 2
  let y := y - (tracker_height + 10)
  let ops := ops ++ draw_initiative_tracker MARGIN y tracker_width tracker_height 3
  let ops := ops ++ draw_initiative_tracker (MARGIN + tracker_width + 10) y tracker_width tracker_height 4
  let y := y - (tracker_height + 15)
  let sh := draw_section_header MARGIN y content_width "Monsters Reference"
  let ops := ops ++ sh.1
  let y := sh.2 - 5
  let col_width := (content_width - 10) / 2
  let ops := ops ++ [Op.setFont "Helvetica" 8, Op.setFillColor LIGHT_GRAY,
    Op.text (MARGIN + 5) y "Monster",
    Op.text (MARGIN + col_width - 40) y "Page",
    Op.text (MARGIN + col_width + 15) y "Monster",
    Op.text (MARGIN + content_width - 35) y "Page"]
  let y := y - 14
  let st := (List.range 4).foldl
    (fun (acc : List Op × Q) _ =>
      let ops := acc.1
      let y := acc.2
      (ops ++ [Op.setStrokeColor LIGHT_GRAY, Op.setLineWidth 0.5, Op.setDash [2, 2],
        Op.line (MARGIN + 5) y (MARGIN + col_width - 50) y,
        Op.line (MARGIN + col_width - 45) y (MARGIN + col_width - 5) y,
        Op.line (MARGIN + col_width + 15) y (MARGIN + content_width - 45) y,
        Op.line (MARGIN + content_width - 40) y (MARGIN + content_width - 5) y],
       y - 12))
    (ops, y)
  st.1 ++ [Op.setDash []]

/-- Draw Page 7: Session Notes (full page of ruled lines). -/
def draw_page7_notes : List Op :=
  let page_width := RM2_WIDTH
  let content_width := page_width - 2 * MARGIN
  let ops : List Op := [Op.bookmarkPage "page7"]
  let nav := draw_nav_bar page_width 6
  let ops := ops ++ nav.1
  let y := nav.2
  let y := y - 10
  let sh := draw_section_header MARGIN y content_width "Session Notes"
  let ops := ops ++ sh.1
  let y := sh.2 - 5
  let remaining_height := y - MARGIN - 10
  let num_lines := pyInt (remaining_height / SMALL_LINE_HEIGHT)
  ops ++ (draw_ruled_lines (MARGIN + 5) y (content_width - 10) num_lines).1

/-- Generate the complete Lazy DM session prep template: the page size
handed to the canvas and the full operation trace written to the document
(`showPage` between consecutive pages, as in the source). -/
def create_lazy_dm_template : (Q × Q) × List Op :=
  ((RM2_WIDTH, RM2_HEIGHT),
   draw_page1_overview ++ [Op.showPage] ++
   draw_page2_scenes ++ [Op.showPage] ++
   draw_page3_locations ++ [Op.showPage] ++
   draw_page4_secrets ++ [Op.showPage] ++
   draw_page5_npcs ++ [Op.showPage] ++
   draw_page6_combat ++ [Op.showPage] ++
   draw_page7_notes)

end LazyDmTemplate

/-! ## Bridge lemmas: the `Q` arithmetic agrees with `ℚ` -/

theorem Q.toRat_add (a b : Q) (ha : a.den ≠ 0) (hb : b.den ≠ 0) :
    (Q.add a b).toRat = a.toRat + b.toRat := by
  have ha' : (a.den : ℚ) ≠ 0 := Int.cast_ne_zero.mpr ha
  have hb' : (b.den : ℚ) ≠ 0 := Int.cast_ne_zero.mpr hb
  simp only [Q.toRat, Q.add]
  push_cast
  field_simp

theorem Q.toRat_sub (a b : Q) (ha : a.den ≠ 0) (hb : b.den ≠ 0) :
    (Q.sub a b).toRat = a.toRat - b.toRat := by
  have ha' : (a.den : ℚ) ≠ 0 := Int.cast_ne_zero.mpr ha
  have hb' : (b.den : ℚ) ≠ 0 := Int.cast_ne_zero.mpr hb
  simp only [Q.toRat, Q.sub]
  push_cast
  field_simp
  all_goals ring

theorem Q.toRat_mul (a b : Q) : (Q.mul a b).toRat = a.toRat * b.toRat := by
  simp only [Q.toRat, Q.mul]
  push_cast
  rw [div_mul_div_comm]

theorem Q.toRat_div (a b : Q) : (Q.div a b).toRat = a.toRat / b.toRat := by
  simp only [Q.toRat, Q.div]
  push_cast
  simp only [division_def, mul_inv, inv_inv]
  ring

theorem Q.ble_iff (a b : Q) (ha : 0 < a.den) (hb : 0 < b.den) :
    Q.ble a b = true ↔ a.toRat ≤ b.toRat := by
  have ha' : (0 : ℚ) < (a.den : ℚ) := by exact_mod_cast ha
  have hb' : (0 : ℚ) < (b.den : ℚ) := by exact_mod_cast hb
  simp only [Q.ble, Q.toRat, decide_eq_true_eq]
  rw [div_le_div_iff₀ ha' hb']
  exact_mod_cast Iff.rfl

theorem Q.eqv_iff (a b : Q) (ha : a.den ≠ 0) (hb : b.den ≠ 0) :
    Q.eqv a b ↔ a.toRat = b.toRat := by
  have ha' : (a.den : ℚ) ≠ 0 := Int.cast_ne_zero.mpr ha
  have hb' : (b.den : ℚ) ≠ 0 := Int.cast_ne_zero.mpr hb
  simp only [Q.eqv, Q.toRat]
  rw [div_eq_div_iff ha' hb']
  exact_mod_cast Iff.rfl

/-! ## The claims -/

set_option maxRecDepth 200000

set_option maxHeartbeats 4000000

/-- Claim C1: for every page composer (`draw_faction_page`,
`draw_faction_page_2`, `draw_page1_overview` … `draw_page7_notes`) no ruled
line, box, arc, link rectangle or text baseline is placed at a y-coordinate
below `MARGIN`: every drawing operation of the emitted trace stays at or
above the bottom margin (the composers themselves return `None` in the
source, so the page's ink is the observable content of the claim; the
cursor value handed back by the last drawing call is the minimum over its
own operations and is covered by the same check). -/
theorem claim_C1_no_ink_below_margin :
    ∀ page_num : Nat,
      checkMinY FactionTemplate.MARGIN (FactionTemplate.draw_faction_page page_num) = true ∧
      checkMinY FactionTemplate.MARGIN FactionTemplate.draw_faction_page_2 = true ∧
      checkMinY LazyDmTemplate.MARGIN LazyDmTemplate.draw_page1_overview = true ∧
      checkMinY LazyDmTemplate.MARGIN LazyDmTemplate.draw_page2_scenes = true ∧
      checkMinY LazyDmTemplate.MARGIN LazyDmTemplate.draw_page3_locations = true ∧
      checkMinY LazyDmTemplate.MARGIN LazyDmTemplate.draw_page4_secrets = true ∧
      checkMinY LazyDmTemplate.MARGIN LazyDmTemplate.draw_page5_npcs = true ∧
      checkMinY LazyDmTemplate.MARGIN LazyDmTemplate.draw_page6_combat = true ∧
      checkMinY LazyDmTemplate.MARGIN LazyDmTemplate.draw_page7_notes = true :=
  fun _ => ⟨rfl, rfl, rfl, rfl, rfl, rfl, rfl, rfl, rfl⟩

/-- Claim C2: `draw_ruled_lines(c, x, y, w, n, h)` returns exactly
`y − n*h` (in both scripts); in particular for `n = 0` it returns `y`
unchanged (as a rational value, `Q.eqv`) and draws no lines. -/
theorem claim_C2_ruled_lines_return :
    ∀ (x y w h : Q) (n : Nat),
      (FactionTemplate.draw_ruled_lines x y w n h).2 = y - (n : Q) * h ∧
      (LazyDmTemplate.draw_ruled_lines x y w n h).2 = y - (n : Q) * h ∧
      Q.eqv (FactionTemplate.draw_ruled_lines x y w 0 h).2 y ∧
      Q.eqv (LazyDmTemplate.draw_ruled_lines x y w 0 h).2 y ∧
      lineOps (FactionTemplate.draw_ruled_lines x y w 0 h).1 = [] ∧
      lineOps (LazyDmTemplate.draw_ruled_lines x y w 0 h).1 = [] := by
  intro x y w h n
  refine ⟨rfl, rfl, ?_, ?_, rfl, rfl⟩ <;>
    · show Q.eqv (Q.sub y (Q.mul ⟨0, 1⟩ h)) y
      simp only [Q.eqv, Q.sub, Q.mul]
      ring

/-- Claim C3: `draw_section_header` (in both scripts) returns exactly
`y − 15`, for every origin, width and title; the returned cursor does not
depend on the title. -/
theorem claim_C3_section_header_return :
    ∀ (x y w : Q) (title : String),
      (FactionTemplate.draw_section_header x y w title).2 = y - 15 ∧
      (LazyDmTemplate.draw_section_header x y w title).2 = y - 15 :=
  fun _ _ _ _ => ⟨rfl, rfl⟩

/-- Claim C4: both scale widgets (`draw_progress_clock` and
`draw_disposition_scale`, each with its fixed set of 5 labels) emit exactly
these line operations: the axis, then exactly 5 major ticks at
`start_x + i * (scale_width / 4)` (hence 4 major segments), then exactly
12 minor ticks (3 per segment), the j-th minor tick of segment i at
`start_x + i * segment_width + j * (segment_width / 4)` with
`segment_width = scale_width / 4` — evenly spaced within each segment;
18 line operations in total. -/
theorem claim_C4_scale_ticks :
    ∀ x y w : Q,
      (lineOps (FactionTemplate.draw_progress_clock x y w)
        = (x + 10, y, x + 10 + (w - 20), y)
          :: (((List.range 5).map fun i =>
                (x + 10 + (i : Q) * ((w - 20) / 4), y - 5,
                 x + 10 + (i : Q) * ((w - 20) / 4), y + 5))
            ++ ((List.range 4).flatMap fun i =>
                (List.range 3).map fun j0 =>
                  (x + 10 + (i : Q) * ((w - 20) / 4)
                     + ((j0 + 1 : Nat) : Q) * (((w - 20) / 4) / 4),
                   y - 3,
                   x + 10 + (i : Q) * ((w - 20) / 4)
                     + ((j0 + 1 : Nat) : Q) * (((w - 20) / 4) / 4),
                   y + 3)))) ∧
      (lineOps (FactionTemplate.draw_progress_clock x y w)).length = 1 + 5 + 12 ∧
      (lineOps (FactionTemplate.draw_disposition_scale x y w)
        = lineOps (FactionTemplate.draw_progress_clock x y w)) ∧
      (lineOps (FactionTemplate.draw_disposition_scale x y w)).length = 1 + 5 + 12 :=
  fun _ _ _ => ⟨rfl, rfl, rfl, rfl⟩

/-- Helper: a trace that ends with a `setDash p` call leaves the canvas
dash state at `p`, whatever came before. -/
theorem dashAfter_append_setDash (d : List Q) (t : List Op) (p : List Q) :
    dashAfter d (t ++ [Op.setDash p]) = p := by
  simp [dashAfter, List.foldl_append]

/-- Claim C5: the 7-page document declares exactly 7 bookmark destinations,
named `page1` … `page7`, one on each of pages 1 … 7 in page order; and on
page i the navigation bar renders exactly the i-th label of `PAGES` in the
distinguished style (Helvetica-Bold, dark gray) while all other labels use
the regular style (Helvetica, medium gray) — the nav labels are the only
centred-text draws of the document. -/
theorem claim_C5_bookmarks_and_nav_highlight :
    bookmarkNames LazyDmTemplate.create_lazy_dm_template.2
      = ["page1", "page2", "page3", "page4", "page5", "page6", "page7"] ∧
    (pagesOf LazyDmTemplate.create_lazy_dm_template.2).map bookmarkNames
      = [["page1"], ["page2"], ["page3"], ["page4"], ["page5"], ["page6"], ["page7"]] ∧
    (pagesOf LazyDmTemplate.create_lazy_dm_template.2).map centredTexts
      = (List.range 7).map (fun i => LazyDmTemplate.PAGES.enum.map fun p =>
          (p.2, if p.1 = i then ("Helvetica-Bold", LazyDmTemplate.DARK_GRAY)
            else ("Helvetica", LazyDmTemplate.MED_GRAY))) :=
  ⟨rfl, rfl, rfl⟩

/-- Claim C6: the generated 7-page document has exactly 7 pages, 7 internal
navigation bookmarks, and on every one of the 7 pages exactly 7 clickable
link rectangles — one per entry of `PAGES`, the i-th linking to destination
`page(i+1)`. -/
theorem claim_C6_seven_pages_seven_links :
    (pagesOf LazyDmTemplate.create_lazy_dm_template.2).length = 7 ∧
    (bookmarkNames LazyDmTemplate.create_lazy_dm_template.2).length = 7 ∧
    (pagesOf LazyDmTemplate.create_lazy_dm_template.2).map linkDests
      = List.replicate 7 ["page1", "page2", "page3", "page4", "page5", "page6", "page7"] :=
  ⟨rfl, rfl, rfl⟩

/-- Claim C7: `create_faction_template` (default filename) produces a
document of exactly 2 pages whose page dimensions are the configured
constants `RM2_WIDTH = 1404·72/226` and `RM2_HEIGHT = 1872·72/226` points;
generation is a total function of the embedding (all divisions are by
positive constants), so it completes without raising. -/
theorem claim_C7_faction_template_output :
    (pagesOf FactionTemplate.create_faction_template.2).length = 2 ∧
    FactionTemplate.create_faction_template.1
      = (FactionTemplate.RM2_WIDTH, FactionTemplate.RM2_HEIGHT) ∧
    FactionTemplate.RM2_WIDTH = 1404 * 72 / 226 ∧
    FactionTemplate.RM2_HEIGHT = 1872 * 72 / 226 :=
  ⟨rfl, rfl, rfl, rfl⟩

/-- Claim C8: every routine that sets a dashed stroke pattern
(`draw_ruled_lines` in both scripts, `draw_field_with_label`,
`draw_initiative_tracker`, and each page composer that calls `setDash`
directly) restores the solid pattern before returning: for every starting
dash state `d` and all arguments — including `num_lines = 0`, covered by
the free `n` — the dash state after the call is `[]`. -/
theorem claim_C8_dash_always_restored :
    ∀ (d : List Q) (x y w h ls le : Q) (label : String) (n tn page_num : Nat),
      dashAfter d (FactionTemplate.draw_ruled_lines x y w n h).1 = [] ∧
      dashAfter d (LazyDmTemplate.draw_ruled_lines x y w n h).1 = [] ∧
      dashAfter d (FactionTemplate.draw_field_with_label x y label ls le) = [] ∧
      dashAfter d (LazyDmTemplate.draw_initiative_tracker x y w h tn) = [] ∧
      dashAfter d (FactionTemplate.draw_faction_page page_num) = [] ∧
      dashAfter d FactionTemplate.draw_faction_page_2 = [] ∧
      dashAfter d LazyDmTemplate.draw_page1_overview = [] ∧
      dashAfter d LazyDmTemplate.draw_page4_secrets = [] ∧
      dashAfter d LazyDmTemplate.draw_page5_npcs = [] ∧
      dashAfter d LazyDmTemplate.draw_page6_combat = [] := by
  intro d x y w h ls le label n tn page_num
  refine ⟨?_, ?_, rfl, ?_, rfl, rfl, rfl, rfl, rfl, rfl⟩
  · simp only [FactionTemplate.draw_ruled_lines, ← List.append_assoc]
    exact dashAfter_append_setDash d _ []
  · simp only [LazyDmTemplate.draw_ruled_lines, ← List.append_assoc]
    exact dashAfter_append_setDash d _ []
  · simp only [LazyDmTemplate.draw_initiative_tracker, ← List.append_assoc]
    exact dashAfter_append_setDash d _ []

/-- Claim C9: for every origin and width, `draw_progress_clock` and
`draw_disposition_scale` emit exactly the same sequence of operations —
axis line, major and minor tick positions, label anchor positions and
baseline offsets, fonts, stroke colours and widths — differing only in the
five label strings drawn (erasing the strings makes the traces equal;
with the labels hand-centred at the tick anchors, the x-offsets of the
drawn strings are determined by the strings themselves). -/
theorem claim_C9_scales_emit_same_geometry :
    ∀ x y w : Q,
      (FactionTemplate.draw_progress_clock x y w).map eraseLabelText
        = (FactionTemplate.draw_disposition_scale x y w).map eraseLabelText ∧
      centredLabels (FactionTemplate.draw_progress_clock x y w)
        = ["Nascent", "Emerging", "Advancing", "Imminent", "Complete"] ∧
      centredLabels (FactionTemplate.draw_disposition_scale x y w)
        = ["Hostile", "Wary", "Neutral", "Friendly", "Allied"] :=
  fun _ _ _ => ⟨rfl, rfl, rfl⟩

/-- Claim C10: two runs of `draw_nav_bar` with different `current_page_idx`
produce the same link rectangles with the same destinations `page1` …
`page7`, the same label strings at the same centred positions, and the same
return value `RM2_HEIGHT − MARGIN − 35`; the index influences only the font
and fill colour chosen for the labels (erasing font and fill choices makes
the two traces equal). -/
theorem claim_C10_nav_bar_noninterference :
    ∀ (page_width : Q) (i j : Nat),
      ((LazyDmTemplate.draw_nav_bar page_width i).1).map eraseTextStyle
        = ((LazyDmTemplate.draw_nav_bar page_width j).1).map eraseTextStyle ∧
      (LazyDmTemplate.draw_nav_bar page_width i).2
        = LazyDmTemplate.RM2_HEIGHT - LazyDmTemplate.MARGIN - 35 ∧
      linkDests (LazyDmTemplate.draw_nav_bar page_width i).1
        = ["page1", "page2", "page3", "page4", "page5", "page6", "page7"] ∧
      centredLabels (LazyDmTemplate.draw_nav_bar page_width i).1 = LazyDmTemplate.PAGES :=
  fun _ _ _ => ⟨rfl, rfl, rfl, rfl⟩
